import Mathlib

set_option autoImplicit false

/-!
Verification of the fetch-with-fallback data-loading logic of an
Express + React demo application.

The client component (`App`) keeps per-resource cached values
(`message`, `userData`, `products`), per-resource loading flags, a global
availability flag (`isApiAvailable`) and a static-hosting marker
(`isNetlify`).  The three load operations (`fetchData` for the greeting,
`fetchUserData` for the profile, `fetchProducts` for the catalog) either
call the backend or substitute fixed fallback constants.  The backend
serves three fixed JSON payloads after fixed artificial delays.

The embedding below translates that logic into pure Lean functions.
Asynchronous request outcomes are represented by a `FetchResult` value
handed to each operation: `response status body` models a resolved
`fetch` whose body was then parsed (`Except.ok` when `response.json()`
succeeded, `Except.error` when parsing rejected), while `timeout` and
`networkError` model an abort by the timeout timer and a rejected
`fetch`.  Side effects that consume time or touch the network are
recorded in an explicit `Effect` list.
-/

namespace Demo

/-- The `ApiMessage` client type: shape of the `/api/hello` payload. -/
structure ApiMessage where
  message : String
deriving DecidableEq

/-- The `UserData` client type: shape of the `/api/user` payload. -/
structure UserData where
  id : Nat
  name : String
  email : String
  role : String
  skills : List String
  experience : Nat
  location : String
  department : String
  projects : Nat
deriving DecidableEq

/-- The `Product` client type: shape of one `/api/products` item. -/
structure Product where
  id : Nat
  name : String
  price : Nat
  category : String
  inStock : Bool
deriving DecidableEq

/-- Shape of the client-side `FALLBACK_DATA` constant object. -/
structure FallbackData where
  message : String
  user : UserData
  products : List Product
deriving DecidableEq

/-- The client-side `FALLBACK_DATA` constant, copied field by field from
the source. -/
def FALLBACK_DATA : FallbackData :=
  { message := "API not available in production. This is fallback data."
    user :=
      { id := 1
        name := "John Doe"
        email := "john@example.com"
        role := "Developer"
        skills := ["JavaScript", "React", "Node.js", "Express"]
        experience := 5
        location := "San Francisco"
        department := "Engineering"
        projects := 12 }
    products :=
      [ { id := 1, name := "Laptop Pro", price := 1299, category := "Electronics", inStock := true }
      , { id := 2, name := "Wireless Headphones", price := 199, category := "Audio", inStock := true }
      , { id := 3, name := "Smart Watch", price := 349, category := "Wearables", inStock := false }
      , { id := 4, name := "Desk Chair", price := 249, category := "Furniture", inStock := true }
      , { id := 5, name := "Coffee Maker", price := 89, category := "Kitchen", inStock := true }
      , { id := 6, name := "Fitness Tracker", price := 129, category := "Wearables", inStock := true } ] }

/-- The component state held in the `useState` hooks of `App`
(rendering-only state such as the active tab is omitted). -/
structure AppState where
  message : String
  loading : Bool
  userData : Option UserData
  products : List Product
  userLoading : Bool
  productsLoading : Bool
  isApiAvailable : Bool
  isNetlify : Bool
deriving DecidableEq

/-- The initial values of the `useState` hooks of `App`. -/
def initialState : AppState :=
  { message := ""
    loading := true
    userData := none
    products := []
    userLoading := false
    productsLoading := false
    isApiAvailable := true
    isNetlify := false }

/-- Outcome of one `fetchWithTimeout(url, ..., timeout)` call followed by
`response.json()`.  `response status body` is a resolved fetch carrying
the HTTP status and the result of parsing the body; `timeout` is an
abort raised by the timeout timer; `networkError` is a rejected fetch
(connection failure).  The client code receives this value at its await
points. -/
inductive FetchResult (α : Type) where
  | response (status : Nat) (body : Except String α)
  | timeout
  | networkError

/-- Observable side effects of one load operation: an attempted network
request (with its URL and timeout bound in ms), or an awaited simulated
delay (ms). -/
inductive Effect where
  | networkRequest (url : String) (timeoutMs : Nat)
  | simDelay (ms : Nat)
deriving DecidableEq

/-- `true` exactly on the `networkRequest` effect. -/
def Effect.isNetworkRequest : Effect → Bool
  | .networkRequest _ _ => true
  | .simDelay _ => false

/-- Continuation of the greeting probe `fetchData` once its awaited
request has an outcome.  Success path: `setMessage(data.message)`,
`setIsApiAvailable(true)`.  Catch path (timeout, network error or parse
error): `setMessage(FALLBACK_DATA.message)`, `setIsApiAvailable(false)`.
Finally: `setLoading(false)`.  No response-status check appears. -/
def applyGreet (o : FetchResult ApiMessage) (s : AppState) : AppState :=
  match o with
  | .response _ (.ok d) =>
      { s with message := d.message, isApiAvailable := true, loading := false }
  | _ =>
      { s with message := FALLBACK_DATA.message, isApiAvailable := false, loading := false }

/-- Continuation of `fetchUserData` once its awaited network request has
an outcome.  Success path: `setUserData(data)` (availability untouched).
Catch path: `setUserData(FALLBACK_DATA.user)`, `setIsApiAvailable(false)`.
Finally: `setUserLoading(false)`. -/
def applyUserNet (o : FetchResult UserData) (s : AppState) : AppState :=
  match o with
  | .response _ (.ok d) =>
      { s with userData := some d, userLoading := false }
  | _ =>
      { s with userData := some FALLBACK_DATA.user, isApiAvailable := false, userLoading := false }

/-- Continuation of `fetchUserData` after the awaited 1000 ms simulated
delay of its degraded branch: `setUserData(FALLBACK_DATA.user)`, finally
`setUserLoading(false)`. -/
def applyUserDelay (s : AppState) : AppState :=
  { s with userData := some FALLBACK_DATA.user, userLoading := false }

/-- Continuation of `fetchProducts` once its awaited network request has
an outcome.  Success path: `setProducts(data)`.  Catch path:
`setProducts(FALLBACK_DATA.products)`, `setIsApiAvailable(false)`.
Finally: `setProductsLoading(false)`. -/
def applyProdNet (o : FetchResult (List Product)) (s : AppState) : AppState :=
  match o with
  | .response _ (.ok d) =>
      { s with products := d, productsLoading := false }
  | _ =>
      { s with products := FALLBACK_DATA.products, isApiAvailable := false, productsLoading := false }

/-- Continuation of `fetchProducts` after the awaited 1000 ms simulated
delay of its degraded branch: `setProducts(FALLBACK_DATA.products)`,
finally `setProductsLoading(false)`. -/
def applyProdDelay (s : AppState) : AppState :=
  { s with products := FALLBACK_DATA.products, productsLoading := false }

/-- The greeting probe `fetchData` of the mount effect, big-step: it
always issues `fetchWithTimeout('/api/hello', \x7b\x7d, 3000)` and then runs
its continuation on the outcome.  It has no cache guard and no
availability check. -/
def fetchData (o : FetchResult ApiMessage) (s : AppState) : AppState × List Effect :=
  (applyGreet o s, [Effect.networkRequest "/api/hello" 3000])

/-- `fetchUserData`, big-step.  Guard: `if (userData) return`.  Then
`setUserLoading(true)`; if `!isApiAvailable`, await a 1000 ms simulated
delay and assign the fallback; otherwise await
`fetchWithTimeout('/api/user', \x7b\x7d, 3000)` and run the continuation on
the outcome. -/
def fetchUserData (o : FetchResult UserData) (s : AppState) : AppState × List Effect :=
  if s.userData.isSome then (s, [])
  else
    let s1 := { s with userLoading := true }
    if !s1.isApiAvailable then
      (applyUserDelay s1, [Effect.simDelay 1000])
    else
      (applyUserNet o s1, [Effect.networkRequest "/api/user" 3000])

/-- `fetchProducts`, big-step.  Guard: `if (products.length > 0) return`.
Then `setProductsLoading(true)`; if `!isApiAvailable`, await a 1000 ms
simulated delay and assign the fallback; otherwise await
`fetchWithTimeout('/api/products', \x7b\x7d, 3000)` and run the continuation
on the outcome. -/
def fetchProducts (o : FetchResult (List Product)) (s : AppState) : AppState × List Effect :=
  if s.products.length > 0 then (s, [])
  else
    let s1 := { s with productsLoading := true }
    if !s1.isApiAvailable then
      (applyProdDelay s1, [Effect.simDelay 1000])
    else
      (applyProdNet o s1, [Effect.networkRequest "/api/products" 3000])

/-- `needle` occurs as a contiguous run inside `hay`. -/
def listContains (hay needle : List Char) : Bool :=
  match hay with
  | [] => needle.isEmpty
  | c :: rest => needle.isPrefixOf (c :: rest) || listContains rest needle

/-- `hostname.includes(needle)` of the mount effect's platform check. -/
def hostIncludes (hostname needle : String) : Bool :=
  listContains hostname.toList needle.toList

/-- The static-hosting platform check of the mount effect:
`window.location.hostname.includes('netlify.app') ||
window.location.hostname.includes('staticblitz.com')`. -/
def isStaticHost (hostname : String) : Bool :=
  hostIncludes hostname "netlify.app" || hostIncludes hostname "staticblitz.com"

/-- The mount `useEffect` of `App`, big-step: on a static-hosting host it
synchronously sets `isNetlify`, pre-sets availability to false, assigns
the fallback greeting, clears `loading` and returns without any awaited
work; otherwise it starts `fetchData`. -/
def mountEffect (hostname : String) (o : FetchResult ApiMessage) (s : AppState) :
    AppState × List Effect :=
  if isStaticHost hostname then
    ({ s with isNetlify := true, isApiAvailable := false,
              message := FALLBACK_DATA.message, loading := false }, [])
  else
    fetchData o s

/-- A tab-activation event of the session, carrying the outcome the
environment would hand to the load operation if it reaches its await
point. -/
inductive SessionEvent where
  | loadUser (o : FetchResult UserData)
  | loadProducts (o : FetchResult (List Product))

/-- Dispatch of the `activeTab` effect: the `user` tab triggers
`fetchUserData`, the `products` tab triggers `fetchProducts`. -/
def stepSession (s : AppState) (e : SessionEvent) : AppState × List Effect :=
  match e with
  | .loadUser o => fetchUserData o s
  | .loadProducts o => fetchProducts o s

/-- Run a list of tab-activation events from an accumulated
state-and-effects pair, sequentially (the spec's cooperative model). -/
def runEvents : List SessionEvent → AppState × List Effect → AppState × List Effect
  | [], acc => acc
  | e :: rest, acc =>
      let r := stepSession acc.1 e
      runEvents rest (r.1, acc.2 ++ r.2)

/-- A whole sequential session: the mount effect on the given hostname,
followed by a list of tab-activation events. -/
def runSession (hostname : String) (o : FetchResult ApiMessage)
    (events : List SessionEvent) : AppState × List Effect :=
  runEvents events (mountEffect hostname o initialState)

end Demo

namespace Server

open Demo

/-- An incoming Express request (the handlers take `req` but never read
it; we model its observable content as path and query pairs). -/
structure Req where
  path : String
  query : List (String × String)

/-- `GET /api/hello`: after `simulateDelay(1000)` responds with the fixed
message object.  The payload does not depend on the request. -/
def helloHandler (_req : Req) : Nat × ApiMessage :=
  (1000, { message := "Hello from Express server!" })

/-- The fixed profile object served by `GET /api/user`. -/
def serverUser : UserData :=
  { id := 1
    name := "John Doe"
    email := "john@example.com"
    role := "Developer"
    skills := ["JavaScript", "React", "Node.js", "Express"]
    experience := 5
    location := "San Francisco"
    department := "Engineering"
    projects := 12 }

/-- `GET /api/user`: after `simulateDelay(2000)` responds with the fixed
profile object.  The payload does not depend on the request. -/
def userHandler (_req : Req) : Nat × UserData :=
  (2000, serverUser)

/-- The fixed ordered product list served by `GET /api/products`. -/
def serverProducts : List Product :=
  [ { id := 1, name := "Laptop Pro", price := 1299, category := "Electronics", inStock := true }
  , { id := 2, name := "Wireless Headphones", price := 199, category := "Audio", inStock := true }
  , { id := 3, name := "Smart Watch", price := 349, category := "Wearables", inStock := false }
  , { id := 4, name := "Desk Chair", price := 249, category := "Furniture", inStock := true }
  , { id := 5, name := "Coffee Maker", price := 89, category := "Kitchen", inStock := true }
  , { id := 6, name := "Fitness Tracker", price := 129, category := "Wearables", inStock := true } ]

/-- `GET /api/products`: after `simulateDelay(3000)` responds with the
fixed ordered product list.  The payload does not depend on the
request. -/
def productsHandler (_req : Req) : Nat × List Product :=
  (3000, serverProducts)

end Server

namespace Demo

/-!
Interleaved small-step model.  The greeting probe started by the mount
effect and the tab-triggered loads each suspend at their await points
(`await fetchWithTimeout(...)`, `await new Promise(... 1000)`), so their
resumptions can interleave.  Each `Action` below is one atomic resumption
of the single-threaded event loop; `step` is partial in the sense that an
action not enabled in the current machine state yields `none`.
-/

/-- Progress of one tab-triggered load: not yet started, suspended on its
network request, suspended on its 1000 ms degraded delay, or finished. -/
inductive Phase where
  | idle
  | awaitingNet
  | awaitingDelay
  | done
deriving DecidableEq

/-- Machine state: the component state plus the suspension points —
whether the greeting probe's request is still in flight, and the phase of
each tab-triggered load. -/
structure MState where
  app : AppState
  greetPending : Bool
  userPhase : Phase
  prodPhase : Phase
deriving DecidableEq

/-- One event-loop resumption: the greeting probe's request completes
with an outcome, a load operation starts (runs synchronously up to its
first await), or a suspended load's request or delay completes. -/
inductive Action where
  | greetResolve (o : FetchResult ApiMessage)
  | userStart
  | userNetResolve (o : FetchResult UserData)
  | userDelayResolve
  | prodStart
  | prodNetResolve (o : FetchResult (List Product))
  | prodDelayResolve

/-- Small-step transition of the interleaved model, `none` when the
action is not enabled.  Each branch is the synchronous segment of the
corresponding source function between two await points. -/
def step (m : MState) (a : Action) : Option MState :=
  match a with
  | .greetResolve o =>
      if m.greetPending then
        some { m with app := applyGreet o m.app, greetPending := false }
      else none
  | .userStart =>
      if m.userPhase = Phase.idle then
        if m.app.userData.isSome then some { m with userPhase := Phase.done }
        else
          let s1 := { m.app with userLoading := true }
          if !s1.isApiAvailable then
            some { m with app := s1, userPhase := Phase.awaitingDelay }
          else
            some { m with app := s1, userPhase := Phase.awaitingNet }
      else none
  | .userNetResolve o =>
      if m.userPhase = Phase.awaitingNet then
        some { m with app := applyUserNet o m.app, userPhase := Phase.done }
      else none
  | .userDelayResolve =>
      if m.userPhase = Phase.awaitingDelay then
        some { m with app := applyUserDelay m.app, userPhase := Phase.done }
      else none
  | .prodStart =>
      if m.prodPhase = Phase.idle then
        if m.app.products.length > 0 then some { m with prodPhase := Phase.done }
        else
          let s1 := { m.app with productsLoading := true }
          if !s1.isApiAvailable then
            some { m with app := s1, prodPhase := Phase.awaitingDelay }
          else
            some { m with app := s1, prodPhase := Phase.awaitingNet }
      else none
  | .prodNetResolve o =>
      if m.prodPhase = Phase.awaitingNet then
        some { m with app := applyProdNet o m.app, prodPhase := Phase.done }
      else none
  | .prodDelayResolve =>
      if m.prodPhase = Phase.awaitingDelay then
        some { m with app := applyProdDelay m.app, prodPhase := Phase.done }
      else none

/-- Run a list of actions from a machine state; `none` as soon as an
action is not enabled. -/
def runTrace : MState → List Action → Option MState
  | m, [] => some m
  | m, a :: rest =>
      match step m a with
      | some m1 => runTrace m1 rest
      | none => none

/-- Machine state right after the mount effect ran on a non-static host:
the component state still initial, the greeting probe's request in
flight, both tab loads not started. -/
def initMState : MState :=
  { app := initialState
    greetPending := true
    userPhase := Phase.idle
    prodPhase := Phase.idle }

/-- Component state after a successful greeting load from the initial
state: the greeting is cached and the loading spinner is off. -/
def greetLoadedState : AppState :=
  (fetchData (FetchResult.response 200 (Except.ok (ApiMessage.mk "Hello from Express server!")))
    initialState).1

/-- Initial component state with availability already known false (as
after a detected static host or a prior failure). -/
def degradedApp : AppState :=
  { initialState with isApiAvailable := false }

/-- Machine state of a degraded session in which the greeting probe is
no longer in flight. -/
def degradedMState : MState :=
  { app := degradedApp
    greetPending := false
    userPhase := Phase.idle
    prodPhase := Phase.idle }

end Demo

namespace Demo

/-! ### Helper lemmas -/

/-- Every arm of the greeting continuation clears the `loading` flag. -/
lemma applyGreet_loading (o : FetchResult ApiMessage) (s : AppState) :
    (applyGreet o s).loading = false := by
  cases o with
  | response st b => cases b <;> rfl
  | timeout => rfl
  | networkError => rfl

/-- Every arm of the profile network continuation clears `userLoading`. -/
lemma applyUserNet_userLoading (o : FetchResult UserData) (s : AppState) :
    (applyUserNet o s).userLoading = false := by
  cases o with
  | response st b => cases b <;> rfl
  | timeout => rfl
  | networkError => rfl

/-- Every arm of the catalog network continuation clears
`productsLoading`. -/
lemma applyProdNet_productsLoading (o : FetchResult (List Product)) (s : AppState) :
    (applyProdNet o s).productsLoading = false := by
  cases o with
  | response st b => cases b <;> rfl
  | timeout => rfl
  | networkError => rfl

/-- The profile network continuation never raises the availability flag. -/
lemma applyUserNet_avail (o : FetchResult UserData) (s : AppState)
    (h : s.isApiAvailable = false) : (applyUserNet o s).isApiAvailable = false := by
  cases o with
  | response st b => cases b <;> simp [applyUserNet, h]
  | timeout => rfl
  | networkError => rfl

/-- The catalog network continuation never raises the availability flag. -/
lemma applyProdNet_avail (o : FetchResult (List Product)) (s : AppState)
    (h : s.isApiAvailable = false) : (applyProdNet o s).isApiAvailable = false := by
  cases o with
  | response st b => cases b <;> simp [applyProdNet, h]
  | timeout => rfl
  | networkError => rfl

/-- After any `fetchUserData` run the profile cache is filled. -/
lemma fetchUserData_isSome (o : FetchResult UserData) (s : AppState) :
    ((fetchUserData o s).1.userData).isSome = true := by
  by_cases hc : s.userData.isSome
  · simp [fetchUserData, hc]
  · by_cases hav : s.isApiAvailable
    · cases o with
      | response st b => cases b <;> simp [fetchUserData, hc, hav, applyUserNet]
      | timeout => simp [fetchUserData, hc, hav, applyUserNet]
      | networkError => simp [fetchUserData, hc, hav, applyUserNet]
    · simp [fetchUserData, hc, hav, applyUserDelay]

/-- A `fetchUserData` call on a state whose profile cache is filled is a
no-op with no effects. -/
lemma fetchUserData_cached (o : FetchResult UserData) (s : AppState)
    (h : s.userData.isSome = true) : fetchUserData o s = (s, []) := by
  simp [fetchUserData, h]

/-- A `fetchProducts` call on a state whose catalog cache is nonempty is
a no-op with no effects. -/
lemma fetchProducts_cached (o : FetchResult (List Product)) (s : AppState)
    (h : s.products.length > 0) : fetchProducts o s = (s, []) := by
  simp [fetchProducts, h]

end Demo

namespace Demo

/-! ### Claim theorems -/

/-- Claim C1: for every resource kind, a load attempt that fails with a
network error or a timeout stores the resource's fixed fallback value,
sets the global availability flag to false, and (being an ordinary
result, not a raised error) does not propagate the failure; timeout and
network failure produce exactly the same resulting state. -/
theorem failure_stores_fallback (s : AppState)
    (hu : s.userData = none) (hp : s.products = []) (ha : s.isApiAvailable = true) :
    (fetchData FetchResult.timeout s = fetchData FetchResult.networkError s
      ∧ (fetchData FetchResult.timeout s).1.message = FALLBACK_DATA.message
      ∧ (fetchData FetchResult.timeout s).1.isApiAvailable = false)
    ∧ (fetchUserData FetchResult.timeout s = fetchUserData FetchResult.networkError s
      ∧ (fetchUserData FetchResult.timeout s).1.userData = some FALLBACK_DATA.user
      ∧ (fetchUserData FetchResult.timeout s).1.isApiAvailable = false)
    ∧ (fetchProducts FetchResult.timeout s = fetchProducts FetchResult.networkError s
      ∧ (fetchProducts FetchResult.timeout s).1.products = FALLBACK_DATA.products
      ∧ (fetchProducts FetchResult.timeout s).1.isApiAvailable = false) := by
  refine ⟨⟨rfl, rfl, rfl⟩, ⟨rfl, ?_, ?_⟩, ⟨rfl, ?_, ?_⟩⟩ <;>
    simp [fetchUserData, fetchProducts, applyUserNet, applyProdNet, hu, hp, ha]

/-- Witness for C1 at the initial state. -/
theorem failure_stores_fallback_witness :
    (fetchUserData FetchResult.timeout initialState).1.isApiAvailable = false :=
  (failure_stores_fallback initialState rfl rfl rfl).2.1.2.2

/-- Claim C4: for the profile and catalog resources, a call on an
uncached resource while availability is false performs no network
request: its only effect is the fixed 1000 ms simulated delay, after
which the fixed fallback value (for the catalog, the fixed 6-item list)
is assigned. -/
theorem degraded_load_uses_fallback_delay (ou : FetchResult UserData)
    (op : FetchResult (List Product)) (s : AppState)
    (hu : s.userData = none) (hp : s.products = []) (ha : s.isApiAvailable = false) :
    (fetchUserData ou s).2 = [Effect.simDelay 1000]
    ∧ (fetchUserData ou s).1.userData = some FALLBACK_DATA.user
    ∧ (fetchProducts op s).2 = [Effect.simDelay 1000]
    ∧ (fetchProducts op s).1.products = FALLBACK_DATA.products
    ∧ FALLBACK_DATA.products.length = 6 := by
  refine ⟨?_, ?_, ?_, ?_, rfl⟩ <;>
    simp [fetchUserData, fetchProducts, applyUserDelay, applyProdDelay, hu, hp, ha]

/-- Witness for C4 at the degraded initial state. -/
theorem degraded_load_uses_fallback_delay_witness :
    (fetchUserData FetchResult.timeout degradedApp).2 = [Effect.simDelay 1000] :=
  (degraded_load_uses_fallback_delay FetchResult.timeout FetchResult.timeout
    degradedApp rfl rfl rfl).1

/-- Claim C6: when the environment probe does not detect static hosting
and the provider answers the greeting request within its bound with the
expected message object, the loaded greeting equals exactly that string
and the global availability flag remains true (one bounded request is
the only effect). -/
theorem greeting_success_keeps_available (hostname : String) (st : Nat) (s : AppState)
    (h : isStaticHost hostname = false) :
    (mountEffect hostname
        (FetchResult.response st (Except.ok (ApiMessage.mk "Hello from Express server!"))) s).1.message
      = "Hello from Express server!"
    ∧ (mountEffect hostname
        (FetchResult.response st (Except.ok (ApiMessage.mk "Hello from Express server!"))) s).1.isApiAvailable
      = true
    ∧ (mountEffect hostname
        (FetchResult.response st (Except.ok (ApiMessage.mk "Hello from Express server!"))) s).2
      = [Effect.networkRequest "/api/hello" 3000] := by
  refine ⟨?_, ?_, ?_⟩ <;> simp [mountEffect, h, fetchData, applyGreet]

/-- Witness for C6 on a local host. -/
theorem greeting_success_keeps_available_witness :
    (mountEffect "localhost"
        (FetchResult.response 200 (Except.ok (ApiMessage.mk "Hello from Express server!")))
        initialState).1.isApiAvailable = true :=
  (greeting_success_keeps_available "localhost" 200 initialState (by decide)).2.1

/-- Claim C7: for every resource kind and every outcome (success,
network failure, timeout or the degraded fallback path), an actual load
run ends with that resource's loading flag false. -/
theorem loading_flag_cleared (og : FetchResult ApiMessage) (ou : FetchResult UserData)
    (op : FetchResult (List Product)) (s : AppState) :
    (fetchData og s).1.loading = false
    ∧ (s.userData = none → (fetchUserData ou s).1.userLoading = false)
    ∧ (s.products = [] → (fetchProducts op s).1.productsLoading = false) := by
  refine ⟨applyGreet_loading og s, fun hu => ?_, fun hp => ?_⟩
  · by_cases hav : s.isApiAvailable <;>
      simp [fetchUserData, hu, hav, applyUserDelay, applyUserNet_userLoading]
  · by_cases hav : s.isApiAvailable <;>
      simp [fetchProducts, hp, hav, applyProdDelay, applyProdNet_productsLoading]

/-- Witness for C7 at the initial state with a timeout outcome. -/
theorem loading_flag_cleared_witness :
    (fetchUserData FetchResult.timeout initialState).1.userLoading = false :=
  (loading_flag_cleared FetchResult.timeout FetchResult.timeout FetchResult.timeout
    initialState).2.1 rfl

/-- Claim C8: the fixed fallback catalog has exactly six items; the item
with id 3 is "Smart Watch" with `inStock = false`, and every other item
has `inStock = true`. -/
theorem fallback_catalog_shape :
    FALLBACK_DATA.products.length = 6
    ∧ (FALLBACK_DATA.products.filter (fun p => p.id == 3)).map (fun p => (p.name, p.inStock))
        = [("Smart Watch", false)]
    ∧ (FALLBACK_DATA.products.filter (fun p => p.id != 3)).all (fun p => p.inStock) = true :=
  ⟨rfl, rfl, rfl⟩

/-- Claim C9: each Data Provider endpoint responds with its fixed
payload after its fixed artificial delay (1000 ms, 2000 ms, 3000 ms),
independently of the incoming request. -/
theorem server_fixed_payloads (r r2 : Server.Req) :
    Server.helloHandler r = (1000, ApiMessage.mk "Hello from Express server!")
    ∧ Server.userHandler r = (2000, Server.serverUser)
    ∧ Server.productsHandler r = (3000, Server.serverProducts)
    ∧ Server.helloHandler r = Server.helloHandler r2
    ∧ Server.userHandler r = Server.userHandler r2
    ∧ Server.productsHandler r = Server.productsHandler r2
    ∧ Server.serverProducts.length = 6 :=
  ⟨rfl, rfl, rfl, rfl, rfl, rfl, rfl⟩

end Demo

namespace Demo

/-- Claim C10: the View Controller never inspects the HTTP response
status.  Any resolved response whose body parses is stored as the loaded
value with availability untouched — whatever the status — and a resolved
response whose body fails to parse behaves exactly like a rejected
fetch. -/
theorem status_never_inspected (st st2 : Nat) (v : UserData) (vp : List Product)
    (vm : ApiMessage) (e : String) (s : AppState)
    (hu : s.userData = none) (hp : s.products = []) (ha : s.isApiAvailable = true) :
    fetchUserData (FetchResult.response st (Except.ok v)) s
      = fetchUserData (FetchResult.response st2 (Except.ok v)) s
    ∧ fetchProducts (FetchResult.response st (Except.ok vp)) s
      = fetchProducts (FetchResult.response st2 (Except.ok vp)) s
    ∧ fetchData (FetchResult.response st (Except.ok vm)) s
      = fetchData (FetchResult.response st2 (Except.ok vm)) s
    ∧ (fetchUserData (FetchResult.response st (Except.ok v)) s).1.userData = some v
    ∧ (fetchUserData (FetchResult.response st (Except.ok v)) s).1.isApiAvailable = true
    ∧ (fetchProducts (FetchResult.response st (Except.ok vp)) s).1.products = vp
    ∧ (fetchProducts (FetchResult.response st (Except.ok vp)) s).1.isApiAvailable = true
    ∧ fetchUserData (FetchResult.response st (Except.error e)) s
      = fetchUserData FetchResult.networkError s
    ∧ fetchProducts (FetchResult.response st (Except.error e)) s
      = fetchProducts FetchResult.networkError s
    ∧ fetchData (FetchResult.response st (Except.error e)) s
      = fetchData FetchResult.networkError s := by
  refine ⟨rfl, rfl, rfl, ?_, ?_, ?_, ?_, rfl, rfl, rfl⟩ <;>
    simp [fetchUserData, fetchProducts, applyUserNet, applyProdNet, hu, hp, ha]

/-- Witness for C10: a 404 response with a parsable body is stored as
the loaded profile and leaves availability true. -/
theorem status_never_inspected_witness :
    (fetchUserData (FetchResult.response 404 (Except.ok FALLBACK_DATA.user))
        initialState).1.isApiAvailable = true :=
  (status_never_inspected 404 500 FALLBACK_DATA.user [] (ApiMessage.mk "x") "bad json"
    initialState rfl rfl rfl).2.2.2.2.1

/-- Counterexample to claim C2 as stated: the greeting loader has no
cache guard.  In a state where the greeting is already cached (and its
load completed), calling `fetchData` again still performs a network
request, so two calls in a row perform network work twice. -/
theorem fetchData_not_idempotent :
    greetLoadedState.message = "Hello from Express server!"
    ∧ greetLoadedState.loading = false
    ∧ (fetchData (FetchResult.response 200 (Except.ok (ApiMessage.mk "Hello from Express server!")))
        greetLoadedState).2 = [Effect.networkRequest "/api/hello" 3000] :=
  ⟨rfl, rfl, rfl⟩

/-- Claim C2 as amended: the profile and catalog loads are idempotent —
after any completed profile load a second call returns the state
unchanged with no effects, and likewise for the catalog whenever the
stored list is nonempty (both the provider's fixed payload and the
fallback are nonempty) — while the greeting loader has no cache guard
and is only ever invoked once, at mount. -/
theorem load_idempotent_once_cached (o o2 : FetchResult UserData)
    (op op2 : FetchResult (List Product)) (s : AppState)
    (hp : (fetchProducts op s).1.products ≠ []) :
    fetchUserData o2 (fetchUserData o s).1 = ((fetchUserData o s).1, [])
    ∧ fetchProducts op2 (fetchProducts op s).1 = ((fetchProducts op s).1, []) :=
  ⟨fetchUserData_cached o2 _ (fetchUserData_isSome o s),
   fetchProducts_cached op2 _ (List.length_pos.mpr hp)⟩

/-- Witness for amended C2: back-to-back timeout loads from the initial
state; the second call of each pair is a no-op. -/
theorem load_idempotent_once_cached_witness :
    fetchUserData FetchResult.timeout (fetchUserData FetchResult.timeout initialState).1
      = ((fetchUserData FetchResult.timeout initialState).1, [])
    ∧ fetchProducts FetchResult.timeout (fetchProducts FetchResult.timeout initialState).1
      = ((fetchProducts FetchResult.timeout initialState).1, []) :=
  load_idempotent_once_cached FetchResult.timeout FetchResult.timeout
    FetchResult.timeout FetchResult.timeout initialState (by decide)

end Demo

namespace Demo

/-- One enabled step of the interleaved model preserves a degraded state
once the greeting probe is no longer in flight: the availability flag
stays false and the probe stays resolved. -/
lemma step_sticky (m m2 : MState) (a : Action) (h : step m a = some m2)
    (hg : m.greetPending = false) (hf : m.app.isApiAvailable = false) :
    m2.greetPending = false ∧ m2.app.isApiAvailable = false := by
  cases a with
  | greetResolve o => simp [step, hg] at h
  | userStart =>
      simp only [step] at h
      split at h
      · split at h
        · exact Option.some.inj h ▸ ⟨hg, hf⟩
        · split at h
          · exact Option.some.inj h ▸ ⟨hg, hf⟩
          · simp [hf] at *
      · exact Option.noConfusion h
  | userNetResolve o =>
      simp only [step] at h
      split at h
      · exact Option.some.inj h ▸ ⟨hg, applyUserNet_avail o m.app hf⟩
      · exact Option.noConfusion h
  | userDelayResolve =>
      simp only [step] at h
      split at h
      · exact Option.some.inj h ▸ ⟨hg, hf⟩
      · exact Option.noConfusion h
  | prodStart =>
      simp only [step] at h
      split at h
      · split at h
        · exact Option.some.inj h ▸ ⟨hg, hf⟩
        · split at h
          · exact Option.some.inj h ▸ ⟨hg, hf⟩
          · simp [hf] at *
      · exact Option.noConfusion h
  | prodNetResolve o =>
      simp only [step] at h
      split at h
      · exact Option.some.inj h ▸ ⟨hg, applyProdNet_avail o m.app hf⟩
      · exact Option.noConfusion h
  | prodDelayResolve =>
      simp only [step] at h
      split at h
      · exact Option.some.inj h ▸ ⟨hg, hf⟩
      · exact Option.noConfusion h

/-- Counterexample to claim C3 as stated: in the interleaved model a
load failure of the profile fetch sets the availability flag to false
while the greeting probe is still in flight, and the probe's success
handler afterwards sets the flag back to true. -/
theorem availability_reset_by_probe :
    (Option.map (fun m => m.app.isApiAvailable)
        (runTrace initMState [Action.userStart, Action.userNetResolve FetchResult.networkError]))
      = some false
    ∧ (Option.map (fun m => m.app.isApiAvailable)
        (runTrace initMState
          [Action.userStart, Action.userNetResolve FetchResult.networkError,
           Action.greetResolve (FetchResult.response 200
             (Except.ok (ApiMessage.mk "Hello from Express server!")))]))
      = some true :=
  ⟨rfl, rfl⟩

/-- Claim C3 as amended: after the greeting probe has resolved (or was
skipped), false is sticky — in every execution every later step keeps
the availability flag false; only the still-pending greeting probe's
success handler can write true. -/
theorem availability_sticky_after_probe (l : List Action) (m m2 : MState)
    (h : runTrace m l = some m2) (hg : m.greetPending = false)
    (hf : m.app.isApiAvailable = false) :
    m2.app.isApiAvailable = false := by
  induction l generalizing m with
  | nil => exact Option.some.inj h ▸ hf
  | cons a rest ih =>
      simp only [runTrace] at h
      cases hs : step m a with
      | none => rw [hs] at h; exact Option.noConfusion h
      | some m1 =>
          rw [hs] at h
          obtain ⟨hg1, hf1⟩ := step_sticky m m1 a hs hg hf
          exact ih m1 h hg1 hf1

/-- Witness for amended C3: a degraded session running a full profile
fallback load keeps the flag false. -/
theorem availability_sticky_after_probe_witness :
    ({ app := applyUserDelay { degradedApp with userLoading := true }
       greetPending := false
       userPhase := Phase.done
       prodPhase := Phase.idle } : MState).app.isApiAvailable = false :=
  availability_sticky_after_probe [Action.userStart, Action.userDelayResolve] degradedMState
    { app := applyUserDelay { degradedApp with userLoading := true }
      greetPending := false
      userPhase := Phase.done
      prodPhase := Phase.idle }
    rfl rfl rfl

end Demo

namespace Demo

/-- A tab-triggered load on a degraded state keeps availability false
and performs no network request. -/
lemma stepSession_degraded (s : AppState) (e : SessionEvent)
    (h : s.isApiAvailable = false) :
    (stepSession s e).1.isApiAvailable = false
    ∧ ((stepSession s e).2.all fun x => !x.isNetworkRequest) = true := by
  cases e with
  | loadUser o =>
      by_cases hc : s.userData.isSome
      · simp [stepSession, fetchUserData, hc, h]
      · simp [stepSession, fetchUserData, hc, h, applyUserDelay, Effect.isNetworkRequest]
  | loadProducts o =>
      by_cases hc : s.products.length > 0
      · simp [stepSession, fetchProducts, hc, h]
      · simp [stepSession, fetchProducts, hc, h, applyProdDelay, Effect.isNetworkRequest]

/-- Running any event list from a degraded accumulator never adds a
network request to the effect log. -/
lemma runEvents_degraded (events : List SessionEvent) :
    ∀ acc : AppState × List Effect, acc.1.isApiAvailable = false →
      (acc.2.all fun x => !x.isNetworkRequest) = true →
      ((runEvents events acc).2.all fun x => !x.isNetworkRequest) = true := by
  induction events with
  | nil => intro acc _ he; simpa [runEvents] using he
  | cons e rest ih =>
      intro acc hs he
      simp only [runEvents]
      obtain ⟨h1, h2⟩ := stepSession_degraded acc.1 e hs
      exact ih _ h1 (by simp [List.all_append, he, h2])

/-- Claim C5: when the environment probe detects a static-hosting host,
the mount effect performs no awaited work at all (no request, no delay),
pre-sets availability to false and immediately assigns the fallback
greeting; consequently no network request is attempted for any resource
during the whole session. -/
theorem static_host_no_network (hostname : String) (o : FetchResult ApiMessage)
    (events : List SessionEvent) (h : isStaticHost hostname = true) :
    (mountEffect hostname o initialState).2 = []
    ∧ (mountEffect hostname o initialState).1.message = FALLBACK_DATA.message
    ∧ (mountEffect hostname o initialState).1.isApiAvailable = false
    ∧ (mountEffect hostname o initialState).1.loading = false
    ∧ ((runSession hostname o events).2.all fun x => !x.isNetworkRequest) = true := by
  refine ⟨?_, ?_, ?_, ?_, ?_⟩
  · simp [mountEffect, h]
  · simp [mountEffect, h]
  · simp [mountEffect, h]
  · simp [mountEffect, h]
  · exact runEvents_degraded events (mountEffect hostname o initialState)
      (by simp [mountEffect, h]) (by simp [mountEffect, h])

/-- Witness for C5 on a Netlify host with one profile and one catalog
load. -/
theorem static_host_no_network_witness :
    ((runSession "demo.netlify.app" FetchResult.timeout
        [SessionEvent.loadUser FetchResult.timeout,
         SessionEvent.loadProducts FetchResult.timeout]).2.all
      fun x => !x.isNetworkRequest) = true :=
  (static_host_no_network "demo.netlify.app" FetchResult.timeout
    [SessionEvent.loadUser FetchResult.timeout,
     SessionEvent.loadProducts FetchResult.timeout] (by decide)).2.2.2.2

end Demo
